import Mathlib

/-!
Verification of the coordination core of the newsletters-manager repository:
the in-process publish/subscribe `MessageBroker` (src/agents/base_agent.py)
and the `OrchestratorAgent` pipeline state machine (src/agents/orchestrator.py),
shallowly embedded in Lean.  The broker's dispatch loop is modelled by the
trace of handler invocations it performs; the orchestrator's mutable
`pipeline_state` dict is modelled by explicit state passing.  Wall-clock
timestamps (`datetime.now()`) are abstracted to natural-number instants
passed as parameters, and float durations to truncated Nat subtraction.
-/

namespace NewslettersManager

/-- The seven message kinds of the `MessageType` enum in
src/agents/base_agent.py; the set is closed. -/
inductive MessageType where
  | EMAIL_COLLECTED
  | NEWSLETTER_DETECTED
  | SUMMARY_GENERATED
  | EMAILS_MARKED_READ
  | TASK_COMPLETED
  | ERROR_OCCURRED
  | AGENT_STATUS
deriving DecidableEq, Repr

/-- The `AgentMessage` dataclass of src/agents/base_agent.py, polymorphic in
the payload type `D` (Python `data: Any`).  Timestamps are abstract Nat
instants. -/
structure AgentMessage (D : Type) where
  id : String
  type : MessageType
  sender : String
  recipient : Option String := none
  data : D
  timestamp : Nat := 0
  correlation_id : Option String := none
deriving DecidableEq, Repr

/-- The broker's `_subscribers` dict (`MessageType -> List[callable]`),
modelled as a total function whose value on an absent key is `[]`
(Python `self._subscribers.get(message_type, [])`).  Handler references
are values of an arbitrary type `H` with decidable identity, matching
Python `in` / `not in` membership tests on the callback list. -/
def Subscribers (H : Type) : Type := MessageType → List H

/-- `MessageBroker.subscribe` (base_agent.py lines 58-70): append the
callback to the kind's list unless it is already present (duplicate
subscriptions are silently skipped). -/
def subscribe {H : Type} [DecidableEq H] (subs : Subscribers H)
    (message_type : MessageType) (callback : H) : Subscribers H :=
  fun t =>
    if t = message_type then
      if callback ∈ subs message_type then subs message_type
      else subs message_type ++ [callback]
    else subs t

/-- `MessageBroker.unsubscribe` (base_agent.py lines 72-75): remove the
first occurrence of the callback if present, otherwise a no-op. -/
def unsubscribe {H : Type} [DecidableEq H] (subs : Subscribers H)
    (message_type : MessageType) (callback : H) : Subscribers H :=
  fun t =>
    if t = message_type then (subs message_type).erase callback
    else subs t

/-- `MessageBroker.get_subscription_count` (base_agent.py lines 95-97). -/
def get_subscription_count {H : Type} (subs : Subscribers H)
    (message_type : MessageType) : Nat :=
  (subs message_type).length

/-- Invocation trace of `MessageBroker._process_message` (base_agent.py
lines 99-108) on one dequeued message: every callback registered for the
message's kind is invoked, sequentially, in registration order. -/
def process_message {H D : Type} (subs : Subscribers H)
    (m : AgentMessage D) : List (AgentMessage D × H) :=
  (subs m.type).map (fun h => (m, h))

/-- Invocation trace of the dispatch loop in `MessageBroker.start`
(base_agent.py lines 81-90) draining the FIFO queue contents `msgs`:
each message is fully processed before the next is dequeued. -/
def dispatch_loop {H D : Type} (subs : Subscribers H) :
    List (AgentMessage D) → List (AgentMessage D × H)
  | [] => []
  | m :: rest => process_message subs m ++ dispatch_loop subs rest

/-- Refinement of `_process_message` that also records each handler's
outcome: a callback body is modelled by `beh`, returning `Except String Unit`
(`.error` models a raised exception).  The `try/except` around each callback
(base_agent.py lines 102-108) catches the failure and logs it, so the loop
invokes every remaining callback regardless of earlier outcomes. -/
def process_message_attempts {H D : Type} (subs : Subscribers H)
    (beh : H → AgentMessage D → Except String Unit) (m : AgentMessage D) :
    List (AgentMessage D × H × Except String Unit) :=
  (subs m.type).map (fun h => (m, h, beh h m))

/-- The dispatch loop of `MessageBroker.start` with handler outcomes
recorded; a failing handler never terminates the loop. -/
def dispatch_loop_attempts {H D : Type} (subs : Subscribers H)
    (beh : H → AgentMessage D → Except String Unit) :
    List (AgentMessage D) → List (AgentMessage D × H × Except String Unit)
  | [] => []
  | m :: rest =>
      process_message_attempts subs beh m ++ dispatch_loop_attempts subs beh rest

/-- A value stored under a string key of a pipeline step dict
(orchestrator.py builds heterogeneous dicts of numbers, booleans, strings
and string lists). -/
inductive Val where
  | nat (n : Nat)
  | bool (b : Bool)
  | str (s : String)
  | strs (l : List String)
deriving DecidableEq, Repr

/-- One step record of `pipeline_result["steps"]` (orchestrator.py).  The
`status`, optional `start_time` and `duration` keys are explicit fields;
the remaining keys of each step dict are kept in `extra` in insertion
order.  Instants are abstract Nat; `duration` uses truncated Nat
subtraction in place of float seconds. -/
structure StepRecord where
  status : String
  start_time : Option Nat := none
  duration : Nat := 0
  extra : List (String × Val) := []
deriving DecidableEq, Repr

/-- The five step names `run_full_pipeline` and the completion handlers
ever write into `pipeline_result["steps"]`. -/
inductive StepName where
  | email_collection
  | newsletter_detection
  | content_summarization
  | email_sending
  | mark_emails_read
deriving DecidableEq, Repr

/-- The `steps` dict of a pipeline result, keyed by the five step names
(absent key = `none`). -/
structure Steps where
  email_collection : Option StepRecord := none
  newsletter_detection : Option StepRecord := none
  content_summarization : Option StepRecord := none
  email_sending : Option StepRecord := none
  mark_emails_read : Option StepRecord := none
deriving DecidableEq, Repr

def Steps.get (s : Steps) : StepName → Option StepRecord
  | .email_collection => s.email_collection
  | .newsletter_detection => s.newsletter_detection
  | .content_summarization => s.content_summarization
  | .email_sending => s.email_sending
  | .mark_emails_read => s.mark_emails_read

/-- The `pipeline_result` dict built by `OrchestratorAgent.run_full_pipeline`
(orchestrator.py lines 257-261) and mutated by the completion handlers. -/
structure PipelineResult where
  status : String
  start_time : Nat
  steps : Steps
  message : Option String := none
  error : Option String := none
  total_duration : Option Nat := none
  end_time : Option Nat := none
deriving DecidableEq, Repr

/-- The orchestrator's `self.pipeline_state` dict (orchestrator.py
lines 32-36): two completion flags and the registered active run
(`None` when no run is registered). -/
structure PipelineState where
  newsletter_detection_completed : Bool
  content_summarization_completed : Bool
  pipeline_result : Option PipelineResult
deriving DecidableEq, Repr

/-- Payload fields read by the orchestrator's completion handlers via
`message.data.get(key, default)`; each field's default value is the
Python default used at the corresponding `get` call. -/
structure MsgData where
  detected_count : Nat := 0
  processed_count : Nat := 0
  execution_time : Option Nat := none
  summary_generated : Bool := false
  newsletters_count : Nat := 0
  processing_duration : Option Nat := none
  email_sent : Bool := false
  pipeline_completion : Bool := false
  results : List (String × Bool) := []
deriving DecidableEq, Repr

/-- Duration computation shared by the three completion handlers
(orchestrator.py lines 128-139, 163-174, 211-222): look up the step's
`start_time`; if present, the duration is now minus it, otherwise 0. -/
def stepDuration (now : Nat) (step : Option StepRecord) : Nat :=
  match step with
  | some s =>
    match s.start_time with
    | some t => now - t
    | none => 0
  | none => 0

/-- The run-record update of `_handle_newsletter_detection_completed`
(orchestrator.py lines 128-157): overwrite `newsletter_detection` with a
completed record (the new dict carries no `start_time` key), and when
`detected_count > 0` seed `content_summarization` as in-progress with a
fresh start time. -/
def update_newsletter_detection (now : Nat) (d : MsgData)
    (r : PipelineResult) : PipelineResult :=
  let duration := stepDuration now r.steps.newsletter_detection
  { r with steps := { r.steps with
      newsletter_detection := some
        { status := "completed"
          duration := duration
          extra := [("detected_count", Val.nat d.detected_count),
                    ("processed_count", Val.nat d.processed_count),
                    ("execution_time", Val.nat (d.execution_time.getD duration))] }
      content_summarization :=
        if d.detected_count > 0 then
          some { status := "in_progress", start_time := some now, duration := 0 }
        else r.steps.content_summarization } }

/-- `_handle_newsletter_detection_completed` (orchestrator.py lines
122-157): the completion flag is set unconditionally, before the
active-run check; the run record is updated only if one is registered. -/
def handle_newsletter_detection_completed (now : Nat) (d : MsgData)
    (st : PipelineState) : PipelineState :=
  let st1 := { st with newsletter_detection_completed := true }
  match st.pipeline_result with
  | none => st1
  | some r => { st1 with pipeline_result := some (update_newsletter_detection now d r) }

/-- The run-record update of `_handle_summarization_completed`
(orchestrator.py lines 163-202): overwrite `content_summarization` with a
completed record; when the payload's `email_sent` flag is set, add a
completed `email_sending` step; then unconditionally overwrite
`mark_emails_read` as in-progress with a fresh start time. -/
def update_summarization (now : Nat) (d : MsgData)
    (r : PipelineResult) : PipelineResult :=
  let duration := stepDuration now r.steps.content_summarization
  { r with steps := { r.steps with
      content_summarization := some
        { status := "completed"
          duration := duration
          extra := [("summary_generated", Val.bool d.summary_generated),
                    ("newsletters_count", Val.nat d.newsletters_count),
                    ("processing_duration", Val.nat (d.processing_duration.getD duration)),
                    ("email_sent", Val.bool d.email_sent)] }
      email_sending :=
        if d.email_sent then
          some { status := "completed"
                 duration := 1
                 extra := [("email_sent", Val.bool true), ("recipients", Val.nat 1)] }
        else r.steps.email_sending
      mark_emails_read := some
        { status := "in_progress"
          start_time := some now
          duration := 0
          extra := [("emails_to_mark", Val.nat d.newsletters_count)] } } }

/-- `_handle_summarization_completed` (orchestrator.py lines 159-202):
the completion flag is set unconditionally, before the active-run check;
the run record is updated only if one is registered. -/
def handle_summarization_completed (now : Nat) (d : MsgData)
    (st : PipelineState) : PipelineState :=
  let st1 := { st with content_summarization_completed := true }
  match st.pipeline_result with
  | none => st1
  | some r => { st1 with pipeline_result := some (update_summarization now d r) }

/-- The run-record update of `_handle_emails_marked_read_completed`
(orchestrator.py lines 211-235): overwrite `mark_emails_read` with a
completed record derived from the per-email `results` map.  Python's
`f"{rate:.1f}%"` float formatting is rendered with integer percentage
(no claim depends on the formatted text). -/
def update_emails_marked_read (now : Nat) (d : MsgData)
    (r : PipelineResult) : PipelineResult :=
  let duration := stepDuration now r.steps.mark_emails_read
  let successful_marks := (d.results.filter (fun p => p.2)).length
  let total_emails := d.results.length
  { r with steps := { r.steps with
      mark_emails_read := some
        { status := "completed"
          duration := duration
          extra := [("emails_marked",
                      Val.str (toString successful_marks ++ "/" ++ toString total_emails)),
                    ("success_rate",
                      Val.str (if total_emails > 0 then
                          toString (successful_marks * 100 / total_emails) ++ "%"
                        else "0%"))] } } }

/-- `_handle_emails_marked_read_completed` (orchestrator.py lines 204-235):
messages whose payload lacks a true `pipeline_completion` discriminator are
ignored entirely; otherwise the run record is updated if one is registered. -/
def handle_emails_marked_read_completed (now : Nat) (d : MsgData)
    (st : PipelineState) : PipelineState :=
  if !d.pipeline_completion then st
  else
    match st.pipeline_result with
    | none => st
    | some r => { st with pipeline_result := some (update_emails_marked_read now d r) }

/-- Dispatch of one broker message to the orchestrator's pipeline-completion
handlers, per the subscriptions registered in `_setup_message_broker`
(orchestrator.py lines 95-114); the error/task handlers only log, and other
kinds have no orchestrator effect on pipeline state. -/
def orchestrator_dispatch (now : Nat) (m : AgentMessage MsgData)
    (st : PipelineState) : PipelineState :=
  match m.type with
  | .NEWSLETTER_DETECTED => handle_newsletter_detection_completed now m.data st
  | .SUMMARY_GENERATED => handle_summarization_completed now m.data st
  | .EMAILS_MARKED_READ => handle_emails_marked_read_completed now m.data st
  | _ => st

/-- Status of a step of the registered run, if any. -/
def PipelineState.stepOf (st : PipelineState) (s : StepName) : Option StepRecord :=
  match st.pipeline_result with
  | none => none
  | some r => r.steps.get s

/-- Result of `EmailCollectorAgent.execute` as read by `run_full_pipeline`
(orchestrator.py lines 265-273): a dict queried for `collected_count`
(default 0) and `errors` (default []). -/
structure CollectResult where
  collected_count : Nat := 0
  errors : List String := []
deriving DecidableEq, Repr

/-- The `email_collection` step record written at orchestrator.py lines
266-271. -/
def collection_step (t0 t1 : Nat) (email_result : CollectResult) : StepRecord :=
  { status := "completed"
    duration := t1 - t0
    extra := [("collected_count", Val.nat email_result.collected_count),
              ("errors", Val.strs email_result.errors)] }

/-- The run record as registered into `pipeline_state["pipeline_result"]`
at orchestrator.py lines 257-288: status still "started", the
`email_collection` step completed and `newsletter_detection` seeded
in-progress at instant `t1`. -/
def registered_run (t0 t1 : Nat) (email_result : CollectResult) : PipelineResult :=
  { status := "started"
    start_time := t0
    steps := { email_collection := some (collection_step t0 t1 email_result)
               newsletter_detection := some
                 { status := "in_progress", start_time := some t1, duration := 0 } } }

/-- The `str(e)` of the exception raised at orchestrator.py line 296:
`max_wait_time = self.settings.pipeline_timeout_seconds` reads a field
that the `Settings` model in src/utils/config.py never defines (and its
pydantic configuration adds no dynamic attribute lookup), so the read
raises AttributeError with this message. -/
def settings_attribute_error : String :=
  "'Settings' object has no attribute 'pipeline_timeout_seconds'"

/-- `OrchestratorAgent.run_full_pipeline` (orchestrator.py lines 253-354).
`t0` is the run's start instant, `t1` the instant the synchronous
collection call returns, `tf` the instant the run finishes; `collect` is
the outcome of `await self.email_collector.execute()` (`.error` models a
raised exception, caught at lines 348-354); `st` is the orchestrator's
`pipeline_state` on entry.

On the non-empty path the run registers the fresh record and clears both
completion flags (lines 278-288) and then, at line 296, reads
`self.settings.pipeline_timeout_seconds`.  `Settings` defines no such
field, so the read raises AttributeError; there is no suspension point
between the collection call returning and this raise, so no handler can
run in between, and the wait phase at lines 300-346 (poll loop, timeout
branch and final "completed" writes) is unreachable.  The `except` at
lines 348-354 writes status "failed", the error text and `end_time` into
the local `pipeline_result` dict — which is the very record just
registered, so the registration keeps pointing at the returned, now
failed, record. -/
def run_full_pipeline (t0 t1 tf : Nat) (collect : Except String CollectResult)
    (st : PipelineState) : PipelineState × PipelineResult :=
  match collect with
  | .error e =>
      -- lines 348-354: the exception is caught, recorded, and a structured
      -- result returned; pipeline_state is never touched on this path
      (st,
        { status := "failed"
          start_time := t0
          steps := {}
          error := some e
          end_time := some tf })
  | .ok email_result =>
      if email_result.collected_count = 0 then
        -- lines 273-276: empty-work short-circuit, no registration
        (st,
          { status := "completed"
            start_time := t0
            steps := { email_collection := some (collection_step t0 t1 email_result) }
            message := some "No emails to process" })
      else
        -- lines 278-288 register the run and clear both flags; line 296 then
        -- raises AttributeError and lines 348-354 finalize the registered
        -- (aliased) record as failed and return it
        let r5 :=
          { registered_run t0 t1 email_result with
              status := "failed"
              error := some settings_attribute_error
              end_time := some tf }
        ({ newsletter_detection_completed := false
           content_summarization_completed := false
           pipeline_result := some r5 }, r5)

/-- Subscription table of the concrete scenario of C2: handlers 1 and 2
subscribed, in that order, on kind `EMAIL_COLLECTED` (playing A) and
handler 3 on kind `SUMMARY_GENERATED` (playing B). -/
def c2_subs : Subscribers Nat :=
  subscribe
    (subscribe (subscribe (fun _ => []) .EMAIL_COLLECTED 1) .EMAIL_COLLECTED 2)
    .SUMMARY_GENERATED 3

def c2_mA1 : AgentMessage Unit :=
  { id := "a1", type := .EMAIL_COLLECTED, sender := "s", data := () }

def c2_mA2 : AgentMessage Unit :=
  { id := "a2", type := .EMAIL_COLLECTED, sender := "s", data := () }

def c2_mB : AgentMessage Unit :=
  { id := "b1", type := .SUMMARY_GENERATED, sender := "s", data := () }

/-- C4 witness table: handler 7 subscribed twice for `EMAIL_COLLECTED`. -/
def c4_subs2 : Subscribers Nat :=
  subscribe (subscribe (fun _ => []) .EMAIL_COLLECTED 7) .EMAIL_COLLECTED 7

def c4_msg : AgentMessage Unit :=
  { id := "c4", type := .EMAIL_COLLECTED, sender := "s", data := () }

/-- Run record and state used to witness C6. -/
def c6_pr : PipelineResult :=
  { status := "started"
    start_time := 0
    steps := { newsletter_detection := some
                 { status := "in_progress", start_time := some 0, duration := 0 } } }

def c6_st : PipelineState :=
  { newsletter_detection_completed := true
    content_summarization_completed := false
    pipeline_result := some c6_pr }

/-- Pipeline state before the run used to exhibit the C1 divergence. -/
def c1_st0 : PipelineState :=
  { newsletter_detection_completed := false
    content_summarization_completed := false
    pipeline_result := none }

/-- State with no registered run, used for C9. -/
def c9_st : PipelineState :=
  { newsletter_detection_completed := false
    content_summarization_completed := false
    pipeline_result := none }

/-- Run record with an active run for C7: detection has completed and
summarization is in progress since instant 2. -/
def c7_pr : PipelineResult :=
  { status := "started"
    start_time := 0
    steps := { newsletter_detection := some
                 { status := "completed", duration := 2,
                   extra := [("detected_count", Val.nat 2)] }
               content_summarization := some
                 { status := "in_progress", start_time := some 2, duration := 0 } } }

def c7_st : PipelineState :=
  { newsletter_detection_completed := true
    content_summarization_completed := false
    pipeline_result := some c7_pr }

/-- Payload of a SummaryGenerated message whose notification (digest
email) was NOT sent. -/
def c7_d : MsgData := { newsletters_count := 2 }

/-- Rank of a step status in the progression
NotStarted(absent) → InProgress → Completed/Failed; a step whose recorded
status is monotonic never sees this rank decrease. -/
def statusRank : Option StepRecord → Nat
  | none => 0
  | some s =>
    if s.status = "in_progress" then 1
    else if s.status = "completed" then 2
    else if s.status = "failed" then 2
    else 0

/-- Message and state fixtures for C8: an active run whose detection step
is in progress, a SummaryGenerated message, and a discriminator-bearing
EmailsMarkedRead message. -/
def c8_pr : PipelineResult :=
  { status := "started"
    start_time := 0
    steps := { newsletter_detection := some
                 { status := "in_progress", start_time := some 0, duration := 0 } } }

def c8_st0 : PipelineState :=
  { newsletter_detection_completed := false
    content_summarization_completed := false
    pipeline_result := some c8_pr }

def c8_msgSG : AgentMessage MsgData :=
  { id := "sg", type := .SUMMARY_GENERATED, sender := "ContentSummarizer",
    data := { newsletters_count := 2 } }

def c8_msgEMR : AgentMessage MsgData :=
  { id := "emr", type := .EMAILS_MARKED_READ, sender := "EmailCollector",
    data := { pipeline_completion := true, results := [("e1", true), ("e2", true)] } }

/-- State after SummaryGenerated then EmailsMarkedRead: mark_emails_read
is completed. -/
def c8_st2 : PipelineState :=
  orchestrator_dispatch 2 c8_msgEMR (orchestrator_dispatch 1 c8_msgSG c8_st0)

/-- State after a duplicate SummaryGenerated arrives on top of c8_st2. -/
def c8_st3 : PipelineState :=
  orchestrator_dispatch 3 c8_msgSG c8_st2

/-- The empty pipeline state used to witness C10. -/
def c10_st0 : PipelineState :=
  { newsletter_detection_completed := false
    content_summarization_completed := false
    pipeline_result := none }

theorem dispatch_loop_append {H D : Type} (subs : Subscribers H)
    (xs ys : List (AgentMessage D)) :
    dispatch_loop subs (xs ++ ys) =
      dispatch_loop subs xs ++ dispatch_loop subs ys := by
  induction xs with
  | nil => simp [dispatch_loop]
  | cons m rest ih => simp [dispatch_loop, ih]

/-- C2: broker dispatch is serialized and FIFO.  For any two messages m1
published before m2 (any queue decomposition l1 ++ m1 :: l2 ++ m2 :: l3),
every handler invocation on m1 — made sequentially in subscriber
registration order by `_process_message` — occurs in the trace before any
invocation on m2; and the concrete scenario A,A,B with handlers h1,h2 on A
and h3 on B yields exactly the trace
[A1→h1, A1→h2, A2→h1, A2→h2, B→h3]. -/
theorem C2_fifo_serialized_dispatch :
    (∀ (D H : Type) (subs : Subscribers H) (l1 l2 l3 : List (AgentMessage D))
        (m1 m2 : AgentMessage D),
        dispatch_loop subs (l1 ++ m1 :: (l2 ++ m2 :: l3)) =
          dispatch_loop subs l1 ++ (process_message subs m1 ++
            (dispatch_loop subs l2 ++ (process_message subs m2 ++
              dispatch_loop subs l3)))) ∧
    dispatch_loop c2_subs [c2_mA1, c2_mA2, c2_mB] =
      [(c2_mA1, 1), (c2_mA1, 2), (c2_mA2, 1), (c2_mA2, 2), (c2_mB, 3)] := by
  constructor
  · intro D H subs l1 l2 l3 m1 m2
    have h1 : l1 ++ m1 :: (l2 ++ m2 :: l3) = l1 ++ ([m1] ++ (l2 ++ ([m2] ++ l3))) := by
      simp
    rw [h1, dispatch_loop_append, dispatch_loop_append, dispatch_loop_append,
      dispatch_loop_append]
    simp [dispatch_loop]
  · decide

/-- C4: subscribing the same handler twice for the same kind is idempotent —
the second `subscribe` leaves the whole table unchanged, the handler is
registered exactly once for that kind, and a dispatched message of that
kind invokes it exactly once (the dispatch trace contains exactly one
invocation pair whose handler is h). -/
theorem C4_subscribe_idempotent (H : Type) [DecidableEq H]
    (subs : Subscribers H) (k : MessageType) (h : H)
    (hnew : List.count h (subs k) = 0) :
    subscribe (subscribe subs k h) k h = subscribe subs k h ∧
    List.count h (subscribe (subscribe subs k h) k h k) = 1 ∧
    ∀ (D : Type) (m : AgentMessage D), m.type = k →
      List.countP (fun p => p.2 == h)
        (process_message (subscribe (subscribe subs k h) k h) m) = 1 := by
  have hmem : h ∉ subs k := List.count_eq_zero.mp hnew
  have key : (subscribe subs k h) k = subs k ++ [h] := by
    simp [subscribe, hmem]
  have idem : subscribe (subscribe subs k h) k h = subscribe subs k h := by
    funext t
    by_cases ht : t = k
    · subst ht
      simp [subscribe, hmem]
    · simp [subscribe, ht]
  have hcnt : List.count h (subscribe (subscribe subs k h) k h k) = 1 := by
    rw [idem, key, List.count_append, hnew]
    simp
  refine ⟨idem, hcnt, ?_⟩
  intro D m hm
  unfold process_message
  rw [List.countP_map, hm, idem, key]
  show List.count h (subs k ++ [h]) = 1
  rw [List.count_append, hnew]
  simp

/-- Witness for C4 at a concrete table: handler 7, kind EMAIL_COLLECTED,
starting from the empty table. -/
theorem C4_subscribe_idempotent_witness :
    List.count 7 (((fun _ => []) : Subscribers Nat) MessageType.EMAIL_COLLECTED) = 0 ∧
    List.count 7 (c4_subs2 MessageType.EMAIL_COLLECTED) = 1 ∧
    List.countP (fun p => p.2 == 7) (process_message c4_subs2 c4_msg) = 1 :=
  ⟨by decide,
    (C4_subscribe_idempotent Nat (fun _ => []) .EMAIL_COLLECTED 7 (by decide)).2.1,
    (C4_subscribe_idempotent Nat (fun _ => []) .EMAIL_COLLECTED 7 (by decide)).2.2
      Unit c4_msg rfl⟩

/-- C5: a failing handler is caught inside `_process_message`'s try/except:
whatever outcome function `beh` assigns to each handler invocation (an
`.error` models a raised exception), the broker still performs exactly the
same invocation sequence — every remaining handler of the current message
and every handler of every subsequently queued message — as in the
failure-free trace, and the dispatch loop itself is a total function, so
no handler failure ever escapes to the publisher. -/
theorem C5_handler_failure_contained :
    ∀ (D H : Type) (subs : Subscribers H)
      (beh : H → AgentMessage D → Except String Unit)
      (msgs : List (AgentMessage D)),
      (dispatch_loop_attempts subs beh msgs).map (fun x => (x.1, x.2.1)) =
        dispatch_loop subs msgs := by
  intro D H subs beh msgs
  induction msgs with
  | nil => rfl
  | cons m rest ih =>
      simp only [dispatch_loop_attempts, dispatch_loop, List.map_append, ih,
        process_message_attempts, process_message, List.map_map]
      rfl

/-- C3: when the synchronous collection call raises, `run_full_pipeline`
catches the exception and returns (rather than raising) a structured
result with status "failed" and the error recorded, and the wait phase is
never entered: the orchestrator's pipeline state — registration and both
completion flags — is left exactly as it was. -/
theorem C3_sync_failure_returns_failed :
    ∀ (t0 t1 tf : Nat) (e : String) (st : PipelineState),
      run_full_pipeline t0 t1 tf (.error e) st =
        (st,
          { status := "failed"
            start_time := t0
            steps := {}
            error := some e
            end_time := some tf }) := by
  intro t0 t1 tf e st
  rfl

/-- C6: with an active run registered, an `EmailsMarkedRead` message whose
payload lacks a true `pipeline_completion` discriminator leaves the
orchestrator's pipeline state — the run's `mark_emails_read` step and
everything else — completely unchanged. -/
theorem C6_emails_marked_read_needs_discriminator (now : Nat) (d : MsgData)
    (st : PipelineState) (r : PipelineResult)
    (_hreg : st.pipeline_result = some r)
    (hdisc : d.pipeline_completion = false) :
    handle_emails_marked_read_completed now d st = st := by
  simp [handle_emails_marked_read_completed, hdisc]

theorem C6_emails_marked_read_needs_discriminator_witness :
    c6_st.pipeline_result = some c6_pr ∧
    ({ results := [("e1", true)] } : MsgData).pipeline_completion = false ∧
    handle_emails_marked_read_completed 9 { results := [("e1", true)] } c6_st = c6_st :=
  ⟨rfl, rfl,
    C6_emails_marked_read_needs_discriminator 9 { results := [("e1", true)] }
      c6_st c6_pr rfl rfl⟩

/-- C1: evaluation of `run_full_pipeline` on the claim's scenario — the
collection returns collected_count = 3 and no completion flag ever
becomes true.  The returned status is "failed", never "timeout": the read
of the undefined `Settings.pipeline_timeout_seconds` at orchestrator.py
line 296 raises AttributeError before any waiting can happen, the blanket
`except` at line 348 records it, and the poll loop with its timeout
branch (lines 300-334) is unreachable, so no run can ever resolve to the
"timeout" status the claim (and the spec's termination design) requires. -/
theorem C1_missing_timeout_setting_fails_run :
    ((run_full_pipeline 0 0 10 (.ok { collected_count := 3 }) c1_st0).2.status
      = "failed") ∧
    ((run_full_pipeline 0 0 10 (.ok { collected_count := 3 }) c1_st0).2.status
      ≠ "timeout") ∧
    ((run_full_pipeline 0 0 10 (.ok { collected_count := 3 }) c1_st0).2.error
      = some settings_attribute_error) ∧
    ((run_full_pipeline 0 0 10 (.ok { collected_count := 3 })
        c1_st0).1.newsletter_detection_completed = false) ∧
    ((run_full_pipeline 0 0 10 (.ok { collected_count := 3 })
        c1_st0).1.content_summarization_completed = false) :=
  ⟨rfl, by decide, rfl, rfl, rfl⟩

/-- C9 counterexample: with no active run registered, processing a
`NewslettersDetected` message does NOT leave all orchestrator pipeline
state unchanged — the handler sets the `newsletter_detection_completed`
flag (orchestrator.py line 126) before checking for an active run, and
the summarization handler does the same with its flag (line 161). -/
theorem C9_counterexample :
    handle_newsletter_detection_completed 0 {} c9_st ≠ c9_st ∧
    handle_summarization_completed 0 {} c9_st ≠ c9_st ∧
    (handle_newsletter_detection_completed 0 {} c9_st).newsletter_detection_completed
      = true ∧
    c9_st.newsletter_detection_completed = false := by
  refine ⟨?_, ?_, rfl, rfl⟩
  · intro h
    exact absurd (congrArg PipelineState.newsletter_detection_completed h) (by decide)
  · intro h
    exact absurd (congrArg PipelineState.content_summarization_completed h) (by decide)

/-- C9 amended: when no active run is registered, none of the three
passive completion handlers raises or creates a run record — the
registration stays `none` and the run state is untouched — but the
detection and summarization handlers still set their respective
completion flags to true; only the emails-marked-read handler leaves the
whole state unchanged. -/
theorem C9_amended_no_active_run (now : Nat) (d : MsgData) (st : PipelineState)
    (h : st.pipeline_result = none) :
    handle_newsletter_detection_completed now d st
      = { st with newsletter_detection_completed := true } ∧
    handle_summarization_completed now d st
      = { st with content_summarization_completed := true } ∧
    handle_emails_marked_read_completed now d st = st := by
  refine ⟨?_, ?_, ?_⟩
  · simp [handle_newsletter_detection_completed, h]
  · simp [handle_summarization_completed, h]
  · unfold handle_emails_marked_read_completed
    cases hb : d.pipeline_completion
    · simp
    · simp [h]

theorem C9_amended_no_active_run_witness :
    c9_st.pipeline_result = none ∧
    handle_newsletter_detection_completed 3 {} c9_st
      = { c9_st with newsletter_detection_completed := true } ∧
    handle_summarization_completed 3 {} c9_st
      = { c9_st with content_summarization_completed := true } ∧
    handle_emails_marked_read_completed 3 {} c9_st = c9_st :=
  ⟨rfl, (C9_amended_no_active_run 3 {} c9_st rfl).1,
    (C9_amended_no_active_run 3 {} c9_st rfl).2.1,
    (C9_amended_no_active_run 3 {} c9_st rfl).2.2⟩

/-- C7 counterexample: with an active run registered and a
`SummaryGenerated` payload that does not indicate a sent notification
(`email_sent` false), the handler nevertheless creates the
`mark_emails_read` step as in-progress (orchestrator.py lines 196-202 run
unconditionally; only the `email_sending` step at lines 188-194 is
conditional on `email_sent`). -/
theorem C7_counterexample :
    c7_d.email_sent = false ∧
    ((handle_summarization_completed 4 c7_d c7_st).stepOf
        StepName.mark_emails_read).map StepRecord.status = some "in_progress" := by
  refine ⟨rfl, ?_⟩
  rfl

/-- C7 amended: with an active run registered, the SummaryGenerated
handler sets the summarization completion flag, records
`content_summarization` as completed with the payload's counts and the
computed duration, seeds an `email_sending` step (already completed) only
if the payload indicates the digest email was sent, and always seeds
`mark_emails_read` as in-progress regardless of the notification flag. -/
theorem C7_amended_summarization_handler (now : Nat) (d : MsgData)
    (st : PipelineState) (r : PipelineResult)
    (h : st.pipeline_result = some r) :
    handle_summarization_completed now d st
      = { st with
            content_summarization_completed := true
            pipeline_result := some (update_summarization now d r) } ∧
    (update_summarization now d r).steps.content_summarization = some
      { status := "completed"
        duration := stepDuration now r.steps.content_summarization
        extra := [("summary_generated", Val.bool d.summary_generated),
                  ("newsletters_count", Val.nat d.newsletters_count),
                  ("processing_duration",
                    Val.nat (d.processing_duration.getD
                      (stepDuration now r.steps.content_summarization))),
                  ("email_sent", Val.bool d.email_sent)] } ∧
    (update_summarization now d r).steps.mark_emails_read = some
      { status := "in_progress"
        start_time := some now
        duration := 0
        extra := [("emails_to_mark", Val.nat d.newsletters_count)] } ∧
    (update_summarization now d r).steps.email_sending =
      (if d.email_sent then
        some { status := "completed"
               duration := 1
               extra := [("email_sent", Val.bool true), ("recipients", Val.nat 1)] }
      else r.steps.email_sending) := by
  refine ⟨?_, rfl, rfl, rfl⟩
  simp [handle_summarization_completed, h]

theorem C7_amended_summarization_handler_witness :
    c7_st.pipeline_result = some c7_pr ∧
    handle_summarization_completed 4 c7_d c7_st
      = { c7_st with
            content_summarization_completed := true
            pipeline_result := some (update_summarization 4 c7_d c7_pr) } :=
  ⟨rfl, (C7_amended_summarization_handler 4 c7_d c7_st c7_pr rfl).1⟩

theorem statusRank_le_two (o : Option StepRecord) : statusRank o ≤ 2 := by
  rcases o with _ | s
  · exact Nat.zero_le 2
  · show (if s.status = "in_progress" then 1
      else if s.status = "completed" then 2
      else if s.status = "failed" then 2 else 0) ≤ 2
    split_ifs <;> simp

theorem rank_step_nd (now : Nat) (d : MsgData) (r : PipelineResult) (s : StepName)
    (hcs : s = StepName.content_summarization → ¬ d.detected_count > 0) :
    statusRank (r.steps.get s) ≤
      statusRank ((update_newsletter_detection now d r).steps.get s) := by
  cases s
  · exact Nat.le_refl _
  · exact Nat.le_trans (statusRank_le_two _) (Nat.le_of_eq rfl)
  · have hz : ¬ d.detected_count > 0 := hcs rfl
    simp [update_newsletter_detection, Steps.get, hz]
  · exact Nat.le_refl _
  · exact Nat.le_refl _

theorem rank_step_sg (now : Nat) (d : MsgData) (r : PipelineResult) (s : StepName)
    (hmer : s ≠ StepName.mark_emails_read) :
    statusRank (r.steps.get s) ≤
      statusRank ((update_summarization now d r).steps.get s) := by
  cases s
  · exact Nat.le_refl _
  · exact Nat.le_refl _
  · exact Nat.le_trans (statusRank_le_two _) (Nat.le_of_eq rfl)
  · show statusRank r.steps.email_sending ≤
      statusRank (if d.email_sent then _ else r.steps.email_sending)
    cases hse : d.email_sent
    · simp
    · simp only [if_pos]
      exact Nat.le_trans (statusRank_le_two _) (Nat.le_of_eq rfl)
  · exact absurd rfl hmer

theorem rank_step_emr (now : Nat) (d : MsgData) (r : PipelineResult) (s : StepName) :
    statusRank (r.steps.get s) ≤
      statusRank ((update_emails_marked_read now d r).steps.get s) := by
  cases s
  · exact Nat.le_refl _
  · exact Nat.le_refl _
  · exact Nat.le_refl _
  · exact Nat.le_refl _
  · exact Nat.le_trans (statusRank_le_two _) (Nat.le_of_eq rfl)

/-- C8 counterexample: processing the message sequence SummaryGenerated,
EmailsMarkedRead(pipeline_completion), SummaryGenerated(duplicate) against
an active run drives the `mark_emails_read` step from "completed" back to
"in_progress" — the step status regresses, refuting monotonicity under
duplicate completion messages. -/
theorem C8_counterexample :
    (c8_st2.stepOf StepName.mark_emails_read).map StepRecord.status
      = some "completed" ∧
    (c8_st3.stepOf StepName.mark_emails_read).map StepRecord.status
      = some "in_progress" := by
  exact ⟨rfl, rfl⟩

/-- C8 amended: within one run, each step's recorded status is monotonic
(its rank in NotStarted → InProgress → Completed/Failed never decreases)
under every single dispatched completion message, except for the two
regressions the code actually performs: `_handle_summarization_completed`
unconditionally rewrites `mark_emails_read` to in-progress even when it
was already completed, and `_handle_newsletter_detection_completed` with
detected_count > 0 rewrites `content_summarization` to in-progress even
when it was already completed. -/
theorem C8_amended_step_monotonic (now : Nat) (m : AgentMessage MsgData)
    (st : PipelineState) (s : StepName)
    (hcs : s = StepName.content_summarization →
      ¬ (m.type = MessageType.NEWSLETTER_DETECTED ∧ m.data.detected_count > 0))
    (hmer : s = StepName.mark_emails_read →
      m.type ≠ MessageType.SUMMARY_GENERATED) :
    statusRank (st.stepOf s) ≤
      statusRank ((orchestrator_dispatch now m st).stepOf s) := by
  cases hty : m.type
  case NEWSLETTER_DETECTED =>
    rcases hpr : st.pipeline_result with _ | r
    · simp [orchestrator_dispatch, hty, handle_newsletter_detection_completed,
        hpr, PipelineState.stepOf]
    · have hz : s = StepName.content_summarization → ¬ m.data.detected_count > 0 :=
        fun hs hgt => hcs hs ⟨hty, hgt⟩
      simp only [orchestrator_dispatch, hty, handle_newsletter_detection_completed,
        hpr, PipelineState.stepOf]
      exact rank_step_nd now m.data r s hz
  case SUMMARY_GENERATED =>
    rcases hpr : st.pipeline_result with _ | r
    · simp [orchestrator_dispatch, hty, handle_summarization_completed,
        hpr, PipelineState.stepOf]
    · have hs : s ≠ StepName.mark_emails_read := fun hsm => (hmer hsm) hty
      simp only [orchestrator_dispatch, hty, handle_summarization_completed,
        hpr, PipelineState.stepOf]
      exact rank_step_sg now m.data r s hs
  case EMAILS_MARKED_READ =>
    cases hpc : m.data.pipeline_completion
    · simp [orchestrator_dispatch, hty, handle_emails_marked_read_completed, hpc]
    · rcases hpr : st.pipeline_result with _ | r
      · simp [orchestrator_dispatch, hty, handle_emails_marked_read_completed,
          hpc, hpr, PipelineState.stepOf]
      · simp only [orchestrator_dispatch, hty, handle_emails_marked_read_completed,
          hpc, hpr, PipelineState.stepOf, Bool.not_true, Bool.false_eq_true,
          if_false]
        exact rank_step_emr now m.data r s
  case EMAIL_COLLECTED => simp [orchestrator_dispatch, hty]
  case TASK_COMPLETED => simp [orchestrator_dispatch, hty]
  case ERROR_OCCURRED => simp [orchestrator_dispatch, hty]
  case AGENT_STATUS => simp [orchestrator_dispatch, hty]

theorem C8_amended_step_monotonic_witness :
    statusRank (c8_st0.stepOf StepName.newsletter_detection) ≤
      statusRank ((orchestrator_dispatch 1 c8_msgSG c8_st0).stepOf
        StepName.newsletter_detection) :=
  C8_amended_step_monotonic 1 c8_msgSG c8_st0 StepName.newsletter_detection
    (by decide) (by decide)

/-- C10: after a run that passed the empty-work check returns with its
terminal status (the AttributeError-induced "failed"), the registration
`pipeline_state["pipeline_result"]` still points at the finished run's
record; a NewslettersDetected, a SummaryGenerated, or a
discriminator-bearing EmailsMarkedRead message processed after
termination still mutates that terminated record's step records instead
of being ignored; and the registration is replaced only by a later
invocation that passes the empty-work check — a later empty-work run or
a later failed collection leaves the whole state, registration included,
untouched, while a later run passing the check installs its own fresh
record. -/
theorem C10_stale_registration (t0 t1 tf : Nat) (cr : CollectResult)
    (st : PipelineState) (hc : cr.collected_count ≠ 0) :
    ((run_full_pipeline t0 t1 tf (.ok cr) st).1.pipeline_result
      = some (run_full_pipeline t0 t1 tf (.ok cr) st).2) ∧
    ((run_full_pipeline t0 t1 tf (.ok cr) st).2.status = "failed") ∧
    ((run_full_pipeline t0 t1 tf (.ok cr) st).2.start_time = t0) ∧
    (∀ (now : Nat) (d : MsgData),
      ((handle_newsletter_detection_completed now d
          (run_full_pipeline t0 t1 tf (.ok cr) st).1).pipeline_result).map
        (fun r => r.steps.newsletter_detection.map StepRecord.status)
        = some (some "completed")) ∧
    (∀ (now : Nat) (d : MsgData),
      ((handle_summarization_completed now d
          (run_full_pipeline t0 t1 tf (.ok cr) st).1).pipeline_result).map
        (fun r => (r.steps.content_summarization.map StepRecord.status,
                   r.steps.mark_emails_read.map StepRecord.status))
        = some (some "completed", some "in_progress")) ∧
    (∀ (now : Nat) (d : MsgData), d.pipeline_completion = true →
      ((handle_emails_marked_read_completed now d
          (run_full_pipeline t0 t1 tf (.ok cr) st).1).pipeline_result).map
        (fun r => r.steps.mark_emails_read.map StepRecord.status)
        = some (some "completed")) ∧
    (∀ (ta tb tc : Nat) (errs : List String),
      (run_full_pipeline ta tb tc (.ok { collected_count := 0, errors := errs })
          (run_full_pipeline t0 t1 tf (.ok cr) st).1).1
        = (run_full_pipeline t0 t1 tf (.ok cr) st).1) ∧
    (∀ (ta tb tc : Nat) (e : String),
      (run_full_pipeline ta tb tc (.error e)
          (run_full_pipeline t0 t1 tf (.ok cr) st).1).1
        = (run_full_pipeline t0 t1 tf (.ok cr) st).1) ∧
    (∀ (ta tb tc : Nat) (cra : CollectResult), cra.collected_count ≠ 0 →
      (run_full_pipeline ta tb tc (.ok cra)
          (run_full_pipeline t0 t1 tf (.ok cr) st).1).1.pipeline_result
        = some (run_full_pipeline ta tb tc (.ok cra)
            (run_full_pipeline t0 t1 tf (.ok cr) st).1).2 ∧
      (run_full_pipeline ta tb tc (.ok cra)
          (run_full_pipeline t0 t1 tf (.ok cr) st).1).2.start_time = ta) := by
  simp only [run_full_pipeline, if_neg hc]
  refine ⟨trivial, trivial, rfl, ?_, ?_, ?_, ?_, ?_, ?_⟩
  · intro now d
    rfl
  · intro now d
    rfl
  · intro now d hdisc
    simp [handle_emails_marked_read_completed, hdisc, update_emails_marked_read]
  · intro ta tb tc errs
    simp
  · intro ta tb tc e
    trivial
  · intro ta tb tc cra hca
    simp only [if_neg hca]
    exact ⟨trivial, rfl⟩

theorem C10_stale_registration_witness :
    (({ collected_count := 3 } : CollectResult).collected_count ≠ 0) ∧
    ((run_full_pipeline 0 0 10 (.ok { collected_count := 3 }) c10_st0).1.pipeline_result
      = some (run_full_pipeline 0 0 10 (.ok { collected_count := 3 }) c10_st0).2) ∧
    (({ pipeline_completion := true } : MsgData).pipeline_completion = true) ∧
    (((handle_emails_marked_read_completed 11 { pipeline_completion := true }
        (run_full_pipeline 0 0 10 (.ok { collected_count := 3 })
          c10_st0).1).pipeline_result).map
      (fun r => r.steps.mark_emails_read.map StepRecord.status)
      = some (some "completed")) :=
  ⟨by decide,
    (C10_stale_registration 0 0 10 { collected_count := 3 } c10_st0 (by decide)).1,
    rfl,
    (C10_stale_registration 0 0 10 { collected_count := 3 } c10_st0
        (by decide)).2.2.2.2.2.1 11 { pipeline_completion := true } rfl⟩


end NewslettersManager
